import Mathlib

/-!
Verification development for the chat-bot dispatch pipeline.

Python strings are modelled as `List Char` (`Str`); dictionaries as
association lists; network-backed collaborators (HTTP fetch, backend track
lookup, backend enqueue) as oracle functions supplied in an environment, as
the spec's "external collaborators" section prescribes.  Every definition is
a direct translation of the corresponding Python function in `src/`.
-/

/-- Python strings modelled as character lists. -/
abbrev Str := List Char

/-- `s.lower()`. -/
def strLower (s : Str) : Str := s.map Char.toLower

/-- `s.startswith(pat)` — `pat` is a leading segment of `s`. -/
def strStartsWith (s pat : Str) : Bool := pat.isPrefixOf s

/-- `s.find(pat)`: index of the first occurrence of substring `pat` in `s`,
`none` when absent (Python returns `-1`). -/
def findSub : Str → Str → Option Nat
  | [], pat => if pat.isPrefixOf [] then some 0 else none
  | c :: t, pat =>
    if pat.isPrefixOf (c :: t) then some 0
    else (findSub t pat).map (· + 1)

/-- `pat in s` substring test. -/
def containsSub (s pat : Str) : Bool := (findSub s pat).isSome

/-- `s.strip()`: remove leading and trailing whitespace. -/
def pyStrip (s : Str) : Str :=
  ((s.dropWhile Char.isWhitespace).reverse.dropWhile Char.isWhitespace).reverse

/-- `s.split(' ', 1)`: the part before the first space, and (when a space
exists) the remainder after it. -/
def splitOnce : Str → Str × Option Str
  | [] => ([], none)
  | c :: t =>
    if c = ' ' then ([], some t)
    else
      let r := splitOnce t
      (c :: r.1, r.2)

/-- `s.split(' ')`: split on every single space, keeping empty segments. -/
def splitSpaces : Str → List Str
  | [] => [[]]
  | c :: t =>
    match splitSpaces t with
    | [] => if c = ' ' then [[], []] else [[c]]
    | h :: r => if c = ' ' then [] :: h :: r else (c :: h) :: r

/-- `s.replace(pat, rep, 1)`: replace the first occurrence of `pat`. -/
def replaceFirst : Str → Str → Str → Str
  | [], pat, rep => if pat.isPrefixOf [] then rep else []
  | c :: t, pat, rep =>
    if pat.isPrefixOf (c :: t) then rep ++ (c :: t).drop pat.length
    else c :: replaceFirst t pat rep

/-- `" ".join(xs)`. -/
def joinSpace : List Str → Str
  | [] => []
  | [x] => x
  | x :: xs => x ++ ' ' :: joinSpace xs

/-- Association-list lookup, modelling Python `dict.get`. -/
def alistLookup {α : Type} : List (Str × α) → Str → Option α
  | [], _ => none
  | (k, v) :: t, key => if k = key then some v else alistLookup t key

/-- Association-list insert-or-update, modelling Python `dict[k] = v`. -/
def alistInsert {α : Type} : List (Str × α) → Str → α → List (Str × α)
  | [], key, v => [(key, v)]
  | (k, w) :: t, key, v =>
    if k = key then (k, v) :: t else (k, w) :: alistInsert t key v

/-- `str(n)` for a Python integer. -/
def intToStr (n : Int) : Str := (toString n).toList

/-! ## Counter store (`NightbotEngine.load_counts` state, `increment_count`,
`get_count` in `src/engine.py`). The persisted `counts.json` dictionary is the
association list; `save_counts` (file I/O) has no logical content. -/

/-- Name normalization shared by `increment_count` and `get_count`:
`cmd = command_name.lower()`, stripping a leading `'!'`. -/
def normalizeCountName (name : Str) : Str :=
  let cmd := strLower name
  match cmd with
  | '!' :: t => t
  | _ => cmd

/-- `NightbotEngine.get_count`: `self.counts.get(cmd, 0)` after normalizing. -/
def get_count (counts : List (Str × Int)) (name : Str) : Int :=
  (alistLookup counts (normalizeCountName name)).getD 0

/-- `cmd in self.counts` (raw-key membership test used by the bare-name
directive branch of `process_response`). -/
def countsContains (counts : List (Str × Int)) (key : Str) : Bool :=
  (alistLookup counts key).isSome

/-- `NightbotEngine.increment_count`: normalize the name, default the entry
to `0`, add one, return the updated store and the post-increment value. -/
def increment_count (counts : List (Str × Int)) (name : Str) :
    List (Str × Int) × Int :=
  let cmd := normalizeCountName name
  let v := (alistLookup counts cmd).getD 0 + 1
  (alistInsert counts cmd v, v)

/-! ## Variable template interpreter (`NightbotEngine.process_response`). -/

/-- The results of the engine's network/expression collaborators, supplied as
oracles: the replacement string each `try`-wrapped handler of
`process_response` would produce (`$(urlfetch ...)` body or bracketed error,
`$(eval ...)` value or bracketed error, `$(uptime)` text). -/
structure EngineOracles where
  urlfetchRes : Str → Str
  evalRes : Str → Str
  uptimeRes : Str

/-- The attributes `process_response` reads from its `ctx` argument
(a `ContextWrapper` or `SimpleContext`). -/
structure EngineCtx where
  author : Str
  args : List Str
  commandName : Option Str

/-- The matching-parenthesis scan of `process_response`: starting at
`start_idx + 1` with `paren_count = 0`, `'('` increments, `')'` decrements
and a zero count yields the index of the close. `chars` is the remainder of
the text from index `i`. -/
def findClose : Str → Nat → Int → Option Nat
  | [], _, _ => none
  | c :: t, i, cnt =>
    if c = '(' then findClose t (i + 1) (cnt + 1)
    else if c = ')' then
      if cnt - 1 = 0 then some i else findClose t (i + 1) (cnt - 1)
    else findClose t (i + 1) cnt

/-- The `if/elif` dispatch of `process_response` on the directive name `cmd`
and argument `arg` of a tag `$(cmd arg)`, in the source's branch order: an
unrecognized tag resolves to itself (`replacement = full_tag`). -/
def resolveTag (oracles : EngineOracles) (ctx : EngineCtx)
    (counts : List (Str × Int)) (fullTag cmd arg : Str) : Str :=
  if cmd = "user".toList then ctx.author
  else if cmd = "touser".toList then
    match ctx.args with
    | a :: _ => a
    | [] => ctx.author
  else if cmd = "query".toList then joinSpace ctx.args
  else if cmd = "count".toList then
    match ctx.commandName with
    | some n => intToStr (get_count counts n)
    | none => "0".toList
  else if cmd ≠ [] ∧ arg = [] then
    if 0 < get_count counts cmd ∨ countsContains counts cmd then
      intToStr (get_count counts cmd)
    else fullTag
  else if cmd = "urlfetch".toList then oracles.urlfetchRes arg
  else if cmd = "eval".toList then oracles.evalRes arg
  else if cmd = "uptime".toList then oracles.uptimeRes
  else fullTag

/-- One iteration of the scan loop of `process_response`: find the first
`$(`, find its matching close, split the inner text into directive name and
argument, and replace the first occurrence of the full tag by its
resolution.  `none` models the loop's `break` (no tag, or no matching
close). -/
def processStep (oracles : EngineOracles) (ctx : EngineCtx)
    (counts : List (Str × Int)) (s : Str) : Option Str :=
  match findSub s ("$(".toList) with
  | none => none
  | some start =>
    match findClose (s.drop (start + 1)) (start + 1) 0 with
    | none => none
    | some endIdx =>
      let fullTag := (s.drop start).take (endIdx + 1 - start)
      let inner := (s.drop (start + 2)).take (endIdx - (start + 2))
      let p := splitOnce inner
      some (replaceFirst s fullTag
        (resolveTag oracles ctx counts fullTag p.1 (p.2.getD [])))

/-- The `for _ in range(max_loops)` scan loop, returning the final text and
the number of replacement iterations performed. -/
def processLoop (oracles : EngineOracles) (ctx : EngineCtx)
    (counts : List (Str × Int)) : Nat → Str → Str × Nat
  | 0, s => (s, 0)
  | fuel + 1, s =>
    match processStep oracles ctx counts s with
    | none => (s, 0)
    | some s' =>
      let r := processLoop oracles ctx counts fuel s'
      (r.1, r.2 + 1)

/-- `max_loops = 10` in `process_response`. -/
def maxLoops : Nat := 10

/-- `NightbotEngine.process_response`: run the scan loop for at most
`max_loops` iterations. -/
def process_response (oracles : EngineOracles) (ctx : EngineCtx)
    (counts : List (Str × Int)) (s : Str) : Str :=
  (processLoop oracles ctx counts maxLoops s).1

/-! ## Permission & cooldown gate (`Bot.check_permission`,
`Bot.check_cooldown` in `src/main.py`). -/

/-- The attributes of a chat author consulted by `check_permission`
(`ctx.author.is_broadcaster` / `is_mod` / `is_subscriber` / `is_vip`) and by
the render context (`ctx.author.name`). -/
structure ChatAuthor where
  name : Str
  isBroadcaster : Bool
  isMod : Bool
  isSubscriber : Bool
  isVip : Bool

/-- `Bot.check_permission`: broadcaster always passes; otherwise the command
name is lowercased and looked up in the permission table (also under a
`'!'`-prefixed key when the name itself is unprefixed); a found entry grants
access per role membership, and a command with no entry is allowed. -/
def check_permission (permissions : List (Str × List Str))
    (author : ChatAuthor) (commandName : Str) : Bool :=
  if author.isBroadcaster then true
  else
    let cmd := strLower commandName
    let permKey : Option Str :=
      if (alistLookup permissions cmd).isSome then some cmd
      else if ¬ strStartsWith cmd ("!".toList) ∧
          (alistLookup permissions ('!' :: cmd)).isSome then some ('!' :: cmd)
      else none
    match permKey with
    | some k =>
      let allowedRoles := (alistLookup permissions k).getD []
      if allowedRoles.contains ("everyone".toList) then true
      else if allowedRoles.contains ("moderator".toList) ∧ author.isMod = true then true
      else if allowedRoles.contains ("subscriber".toList) ∧ author.isSubscriber = true then true
      else if allowedRoles.contains ("vip".toList) ∧ author.isVip = true then true
      else false
    | none => true

/-- `Bot.check_cooldown`: a command with no configured cooldown never
blocks; otherwise, within the window the call returns `true` and leaves the
state untouched, past the window it records `now` and returns `false`.
`time.time()` timestamps are modelled as integers. -/
def check_cooldown (cooldowns : List (Str × Int)) (state : List (Str × Int))
    (cmdName : Str) (now : Int) : Bool × List (Str × Int) :=
  match alistLookup cooldowns cmdName with
  | none => (false, state)
  | some duration =>
    let lastUsed := (alistLookup state cmdName).getD 0
    if now - lastUsed < duration then (true, state)
    else (false, alistInsert state cmdName now)

/-! ## Command router (`Bot.event_message` in `src/main.py`). -/

/-- The alias-match predicate of `event_message`: the line equals the alias
or starts with the alias followed by a space, compared lowercased. -/
def matchesAlias (content al : Str) : Bool :=
  (strLower content == strLower al) ||
    strStartsWith (strLower content) (strLower al ++ [' '])

/-- The nested `for main_cmd, aliases ... for alias ...` scan with `break`:
first mapping whose alias list contains a match wins. -/
def findAliasMatch : List (Str × List Str) → Str → Option (Str × Str)
  | [], _ => none
  | (mainCmd, aliases) :: rest, content =>
    match aliases.find? (fun a => matchesAlias content a) with
    | some a => some (mainCmd, a)
    | none => findAliasMatch rest content

/-- The alias-rewrite step of `event_message`: only `'!'`-prefixed lines are
scanned; on a match the line becomes the main command followed by the
content after the alias (`matched_main_cmd + content[len(matched_alias):]`). -/
def rewriteLine (aliasTable : List (Str × List Str)) (content : Str) : Str :=
  if strStartsWith content ("!".toList) then
    match findAliasMatch aliasTable content with
    | some (mainCmd, al) => mainCmd ++ content.drop al.length
    | none => content
  else content

/-- A stored custom-command value: either a plain string template or the
legacy dictionary form whose template sits under the `response` key
(`response_template.get('response', '')`). -/
inductive CmdTemplate where
  | str (s : Str)
  | obj (response : Option Str)

/-- Template extraction from a stored custom-command value. -/
def templateOf : CmdTemplate → Str
  | .str s => s
  | .obj r => r.getD []

/-- The bot state read and written by the custom-command dispatch path of
`event_message`. -/
structure BotState where
  commandAliases : List (Str × List Str)
  customCommands : List (Str × CmdTemplate)
  permissions : List (Str × List Str)
  cooldowns : List (Str × Int)
  cooldownState : List (Str × Int)
  counts : List (Str × Int)

/-- The observable result of one `event_message` dispatch: the text sent to
chat (if any) and the updated counter and cooldown state. -/
structure DispatchOutcome where
  sent : Option Str
  counts : List (Str × Int)
  cooldownState : List (Str × Int)

/-- The custom-command body that `event_message` duplicates verbatim in its
prefixed and non-prefixed branches: permission gate, cooldown gate, counter
increment, render via `process_response` with a `ContextWrapper`
(`args = content.split(' ', 1)[1].split(' ')`), then send. -/
def runCustomCommand (oracles : EngineOracles) (st : BotState)
    (author : ChatAuthor) (now : Int) (content cmdName : Str)
    (tmpl : CmdTemplate) : DispatchOutcome :=
  if ¬ check_permission st.permissions author cmdName = true then
    ⟨none, st.counts, st.cooldownState⟩
  else
    let cd := check_cooldown st.cooldowns st.cooldownState cmdName now
    if cd.1 then ⟨none, st.counts, cd.2⟩
    else
      let responseTemplate := templateOf tmpl
      let counts' := (increment_count st.counts cmdName).1
      let args :=
        match (splitOnce content).2 with
        | some rest => splitSpaces rest
        | none => []
      let ctx : EngineCtx := ⟨author.name, args, some cmdName⟩
      ⟨some (process_response oracles ctx counts' responseTemplate), counts', cd.2⟩

/-- The custom-command dispatch of `Bot.event_message`: `'!'`-prefixed lines
go through alias rewrite and a lowercased-first-token lookup in
`custom_commands`; bare lines look up their first word; anything else is
left to native-command handling (no custom send, state unchanged). -/
def event_message (oracles : EngineOracles) (st : BotState)
    (author : ChatAuthor) (now : Int) (content : Str) : DispatchOutcome :=
  if strStartsWith content ("!".toList) then
    let content2 := rewriteLine st.commandAliases content
    let cmdName := strLower (splitOnce content2).1
    match alistLookup st.customCommands cmdName with
    | some tmpl => runCustomCommand oracles st author now content2 cmdName tmpl
    | none => ⟨none, st.counts, st.cooldownState⟩
  else
    let firstWord := strLower (splitOnce content).1
    match alistLookup st.customCommands firstWord with
    | some tmpl => runCustomCommand oracles st author now content firstWord tmpl
    | none => ⟨none, st.counts, st.cooldownState⟩

/-! ## Backend action resolver (`Bot._add_to_queue_with_retry`,
`Bot._resolve_and_add_to_queue` in `src/main.py`;
`CiderManager.extract_track_id` in `src/cider_manager.py`;
`SpotifyManager.extract_track_id` in `src/spotify_manager.py`). -/

/-- A track dictionary produced by a backend (`get_track_info` /
`add_to_queue` results). -/
structure TrackInfo where
  name : Str
  artist : Str
  album : Str
  url : Str
  imageUrl : Str
deriving DecidableEq

/-- A `(success, code, track)` triple returned by a backend add/search. -/
structure AddResult where
  success : Bool
  code : Str
  track : Option TrackInfo
deriving DecidableEq

/-- `retryable_codes` in `Bot._add_to_queue_with_retry`. -/
def retryable_codes : List Str :=
  ["SPOTIFY_API_ERROR".toList, "QUEUE_TIMEOUT".toList,
   "SEARCH_TIMEOUT".toList, "SEARCH_ERROR".toList]

/-- The `while attempt <= max_retries` loop of `Bot._add_to_queue_with_retry`.
`results n` is the outcome of the `n`-th call to `spotify.add_to_queue`
(the backend is a network collaborator, supplied as an oracle); `left` is
the number of loop iterations still permitted, i.e. `max_retries + 1 -
attempt`, so the `attempt < max_retries` retry guard is `0 < left`.  The
value returned alongside the result counts the backend calls made.  The
interim "retrying" chat notice and the 5-second sleep on the retry path are
side effects with no bearing on the returned outcome. -/
def addLoop (results : Nat → AddResult) : Nat → Nat → AddResult × Nat
  | 0, calls => (⟨false, "RETRIES_EXHAUSTED".toList, none⟩, calls)
  | left + 1, calls =>
    let r := results calls
    if r.success then (r, calls + 1)
    else if r.code ∈ retryable_codes ∧ 0 < left then addLoop results left (calls + 1)
    else (r, calls + 1)

/-- `Bot._add_to_queue_with_retry` with its bound `max_retries` (the bot
always uses the default `1`): run the loop from `attempt = 0`. -/
def add_to_queue_with_retry (results : Nat → AddResult) (maxRetries : Nat) :
    AddResult × Nat :=
  addLoop results (maxRetries + 1) 0

/-- Python `[a-zA-Z0-9]`. -/
def isAlnumAscii (c : Char) : Bool := c.isAlpha || c.isDigit

/-- `re.search(r'[?&]i=(\d+)', s)` from `CiderManager.extract_track_id`:
leftmost `?` or `&` followed by `i=` and at least one digit; the capture is
the maximal digit run. -/
def searchIParam : Str → Option Str
  | [] => none
  | c :: t =>
    if c = '?' ∨ c = '&' then
      if ("i=".toList).isPrefixOf t then
        let run := (t.drop 2).takeWhile Char.isDigit
        if run = [] then searchIParam t else some run
      else searchIParam t
    else searchIParam t

/-- One anchored attempt of `re.search(r'/song/[^/]+/(\d+)', s)`: the
literal `/song/`, a nonempty run without `/`, a `/`, then a nonempty digit
run (the capture). -/
def songMatchAt (s : Str) : Option Str :=
  if ("/song/".toList).isPrefixOf s then
    let rest := s.drop 6
    let seg := rest.takeWhile (fun c => ¬ c = '/')
    if seg = [] then none
    else
      match rest.drop seg.length with
      | '/' :: rest2 =>
        let d := rest2.takeWhile Char.isDigit
        if d = [] then none else some d
      | _ => none
  else none

/-- `re.search(r'/song/[^/]+/(\d+)', s)`: try each start position left to
right. -/
def searchSongPath : Str → Option Str
  | [] => none
  | c :: t =>
    match songMatchAt (c :: t) with
    | some d => some d
    | none => searchSongPath t

/-- `CiderManager.extract_track_id`: strip, then try the `?i=`/`&i=` query
parameter, the `/song/name/id` URL path, and finally a bare all-digit id. -/
def cider_extract_track_id (input : Str) : Option Str :=
  let s := pyStrip input
  match searchIParam s with
  | some d => some d
  | none =>
    match searchSongPath s with
    | some d => some d
    | none => if s ≠ [] ∧ s.all Char.isDigit then some s else none

/-- `re.search` for a literal followed by a nonempty character-class run
(`lit(run+)`), leftmost match, maximal capture; used for the two Spotify
link shapes. -/
def searchLitRun (lit : Str) (pred : Char → Bool) : Str → Option Str
  | [] => none
  | c :: t =>
    if lit.isPrefixOf (c :: t) then
      let run := ((c :: t).drop lit.length).takeWhile pred
      if run = [] then searchLitRun lit pred t else some run
    else searchLitRun lit pred t

/-- `SpotifyManager.extract_track_id`: strip, then the
`open.spotify.com/track/<id>` URL shape, the `spotify:track:<id>` URI
shape, and finally `^[a-zA-Z0-9]{15,}$` for a bare id. -/
def spotify_extract_track_id (input : Str) : Option Str :=
  let s := pyStrip input
  match searchLitRun ("open.spotify.com/track/".toList) isAlnumAscii s with
  | some d => some d
  | none =>
    match searchLitRun ("spotify:track:".toList) isAlnumAscii s with
    | some d => some d
    | none =>
      if 15 ≤ s.length ∧ s.all isAlnumAscii then some s else none

/-- `s.replace(pat, rep)` (all occurrences), fuelled by `s.length`; each
step consumes at least one character when `pat` is nonempty (the only way
the source calls it). -/
def replaceAllAux (pat rep : Str) : Nat → Str → Str
  | 0, s => s
  | fuel + 1, s =>
    if pat ≠ [] ∧ pat.isPrefixOf s then
      rep ++ replaceAllAux pat rep fuel (s.drop pat.length)
    else
      match s with
      | [] => []
      | c :: t => c :: replaceAllAux pat rep fuel t

/-- `s.replace(pat, rep)`. -/
def replaceAll (s pat rep : Str) : Str := replaceAllAux pat rep s.length s

/-- The network collaborators consulted by `_resolve_and_add_to_queue`,
supplied as oracles: the native-backend track lookups
(`cider.get_track_info`, `spotify.get_track_info`, `None` on failure) and
the target-backend add operations (`spotify.add_to_queue`, indexed by query
and call number because the retry helper may call it repeatedly, and
`cider.add_to_queue`). -/
structure ResolverEnv where
  ciderInfo : Str → Option TrackInfo
  spotifyInfo : Str → Option TrackInfo
  spotifyAdd : Str → Nat → AddResult
  ciderAdd : Str → AddResult

/-- A `(success, message, track)` outcome of `_resolve_and_add_to_queue`. -/
abbrev ResolveOutcome := Bool × Str × Option TrackInfo

/-- `Bot._resolve_and_add_to_queue`, paired with the number of add calls
made on the target backend.  Case A (Apple link, Spotify target) and Case B
(Spotify link, Cider target) resolve the link on its native backend into an
`"<artist> <name>"` search query — Case A also strips `'Apple Music'` from
the artist — and return a failure without touching the target when the
native lookup returns `None`; when the link's track id cannot be extracted
the original query falls through unchanged.  Step 2 adds on the target:
Spotify via `_add_to_queue_with_retry`, Cider via a single direct call. -/
def resolve_and_add_to_queue (env : ResolverEnv) (targetSource query : Str) :
    ResolveOutcome × Nat :=
  let isSpotifyLink :=
    containsSub query ("spotify.com".toList) || containsSub query ("spotify:".toList)
  let isAppleLink := containsSub query ("music.apple.com".toList)
  let step1 : Except ResolveOutcome Str :=
    if targetSource = "spotify".toList ∧ isAppleLink = true then
      match cider_extract_track_id query with
      | some tid =>
        match env.ciderInfo tid with
        | some info =>
          .ok (pyStrip (replaceAll info.artist ("Apple Music".toList) []) ++ ' ' :: info.name)
        | none =>
          .error (false, "Could not resolve Apple Music link (Cider offline?)".toList, none)
      | none => .ok query
    else if targetSource = "cider".toList ∧ isSpotifyLink = true then
      match spotify_extract_track_id query with
      | some tid =>
        match env.spotifyInfo tid with
        | some info => .ok (info.artist ++ ' ' :: info.name)
        | none => .error (false, "Could not resolve Spotify link".toList, none)
      | none => .ok query
    else .ok query
  match step1 with
  | .error e => (e, 0)
  | .ok searchQuery =>
    if targetSource = "spotify".toList then
      let r := add_to_queue_with_retry (env.spotifyAdd searchQuery) 1
      ((r.1.success, r.1.code, r.1.track), r.2)
    else if targetSource = "cider".toList then
      let r := env.ciderAdd searchQuery
      ((r.success, r.code, r.track), 1)
    else ((false, "UNKNOWN_SOURCE".toList, none), 0)

/-! ## Event-stream client (`EventSubClient.listen` in
`src/eventsub_client.py`). -/

/-- An event observed by the `listen` loop: a message handled successfully
by the `async for` read loop, or a transport error (the read loop or the
subsequent `fresh_connect` raising). -/
inductive ESEvent where
  | msg
  | err
deriving DecidableEq

/-- The listener state: the `reconnect_attempts` counter and the `running`
flag. -/
structure ESState where
  attempts : Nat
  running : Bool
deriving DecidableEq

/-- `max_reconnect_attempts = 5` in `EventSubClient.listen`. -/
def maxReconnectAttempts : Nat := 5

/-- `EventSubClient.listen` as a fold over observed events, collecting the
backoff delays slept before each reconnect attempt.  A handled message
resets `reconnect_attempts` to 0; an error increments it, gives up (clears
`running`, terminating the loop) once the counter exceeds
`max_reconnect_attempts`, and otherwise sleeps `min(2 ** attempts, 32)`
seconds before reconnecting.  Once `running` is false no further event is
processed. -/
def listenRun : ESState → List ESEvent → ESState × List Nat
  | st, [] => (st, [])
  | st, e :: rest =>
    if st.running = true then
      match e with
      | .msg => listenRun ⟨0, st.running⟩ rest
      | .err =>
        let a := st.attempts + 1
        if a > maxReconnectAttempts then (⟨a, false⟩, [])
        else
          let r := listenRun ⟨a, st.running⟩ rest
          (r.1, min (2 ^ a) 32 :: r.2)
    else (st, [])

/-! ## Concrete fixtures used by witness and counterexample theorems. -/

/-- Trivial engine oracles: every network/expression collaborator returns
the empty string (no template below ever consults them). -/
def noOracles : EngineOracles := ⟨fun _ => [], fun _ => [], []⟩

/-- The invoker `alice`, with no special roles. -/
def aliceAuthor : ChatAuthor := ⟨"alice".toList, false, false, false, false⟩

/-- Bot state for scenario 1: one custom command `!hello` with template
`"Hi {user}!"`, no aliases, no permissions, no cooldowns, no counters. -/
def helloState : BotState :=
  ⟨[], [(("!hello".toList), .str ("Hi {user}!".toList))], [], [], [], []⟩

/-- `helloState` with the template written in the engine's directive syntax
`"Hi $(user)!"`. -/
def helloDirectiveState : BotState :=
  ⟨[], [(("!hello".toList), .str ("Hi $(user)!".toList))], [], [], [], []⟩

/-- Bot state for scenario 2: custom command `!deaths` with template
`"Count: $(count)"` and stored counter `deaths = 7`. -/
def deathsState : BotState :=
  ⟨[], [(("!deaths".toList), .str ("Count: $(count)".toList))], [], [], [],
   [(("deaths".toList), 7)]⟩

/-- A backend whose add always fails with the transient `QUEUE_TIMEOUT`. -/
def failTransient : Nat → AddResult := fun _ => ⟨false, "QUEUE_TIMEOUT".toList, none⟩

/-- A backend whose add always fails with the non-transient `NO_DEVICE`. -/
def failNoDevice : Nat → AddResult := fun _ => ⟨false, "NO_DEVICE".toList, none⟩

/-- A resolver environment whose native-backend lookups always fail
(`get_track_info` returning `None`, e.g. Cider offline) while the target
backends accept every add. -/
def envNativeDown : ResolverEnv :=
  ⟨fun _ => none, fun _ => none,
   fun _ _ => ⟨true, "QUEUE_SUCCESS".toList, none⟩,
   fun _ => ⟨true, "QUEUE_SUCCESS".toList, none⟩⟩

/-! ## Helper lemmas. -/

theorem alistLookup_insert {α : Type} (l : List (Str × α)) (k : Str) (v : α) :
    alistLookup (alistInsert l k v) k = some v := by
  induction l with
  | nil => simp [alistInsert, alistLookup]
  | cons h t ih =>
    by_cases hk : h.1 = k
    · simp [alistInsert, alistLookup, hk]
    · simp [alistInsert, alistLookup, hk, ih]

theorem processLoop_iterations_le (oracles : EngineOracles) (ctx : EngineCtx)
    (counts : List (Str × Int)) :
    ∀ fuel s, (processLoop oracles ctx counts fuel s).2 ≤ fuel := by
  intro fuel
  induction fuel with
  | zero => intro s; simp [processLoop]
  | succ n ih =>
    intro s
    simp only [processLoop]
    cases h : processStep oracles ctx counts s with
    | none => simp
    | some s2 => simpa using ih s2

theorem replaceFirst_self_eq (s pat : Str) : replaceFirst s pat pat = s := by
  induction s with
  | nil =>
    simp only [replaceFirst]
    split
    · next h => exact List.prefix_nil.mp (List.isPrefixOf_iff_prefix.mp h)
    · rfl
  | cons c t ih =>
    simp only [replaceFirst]
    split
    · next h => exact List.prefix_iff_eq_append.mp (List.isPrefixOf_iff_prefix.mp h)
    · simp [ih]

theorem processLoop_fixed_point (oracles : EngineOracles) (ctx : EngineCtx)
    (counts : List (Str × Int)) (s : Str)
    (h : processStep oracles ctx counts s = some s) :
    ∀ fuel, (processLoop oracles ctx counts fuel s).1 = s := by
  intro fuel
  induction fuel with
  | zero => rfl
  | succ n ih => simp only [processLoop, h]; exact ih

theorem resolveTag_unresolved (oracles : EngineOracles) (ctx : EngineCtx)
    (counts : List (Str × Int)) (fullTag cmd arg : Str)
    (h : (arg ≠ [] ∧ cmd ∉ ["user".toList, "touser".toList, "query".toList,
            "count".toList, "urlfetch".toList, "eval".toList, "uptime".toList]) ∨
         (arg = [] ∧ cmd ∉ ["user".toList, "touser".toList, "query".toList,
            "count".toList] ∧
          ¬ (0 < get_count counts cmd ∨ countsContains counts cmd = true))) :
    resolveTag oracles ctx counts fullTag cmd arg = fullTag := by
  rcases h with ⟨harg, hmem⟩ | ⟨harg, hmem, hcnt⟩
  · simp only [List.mem_cons, not_or, List.not_mem_nil] at hmem
    obtain ⟨h1, h2, h3, h4, h5, h6, h7, -⟩ := hmem
    simp at h1 h2 h3 h4 h5 h6 h7
    simp [resolveTag, h1, h2, h3, h4, h5, h6, h7, harg]
  · simp only [List.mem_cons, not_or, List.not_mem_nil] at hmem
    obtain ⟨h1, h2, h3, h4, -⟩ := hmem
    simp at h1 h2 h3 h4
    by_cases hcn : cmd = []
    · subst hcn
      simp [resolveTag, hcnt, harg]
    · simp [resolveTag, h1, h2, h3, h4, hcn, harg, hcnt]

/-! ## Claim theorems. -/

/-- C9: the directive scan of `process_response` terminates for every input
template (it is a total function), performs at most 10 replacement
iterations (the `max_loops` ceiling), and an input whose first `$(` has no
matching closing parenthesis is returned unchanged (the loop breaks without
raising). -/
theorem directive_scan_bounded_and_total (oracles : EngineOracles)
    (ctx : EngineCtx) (counts : List (Str × Int)) (s : Str) :
    (processLoop oracles ctx counts maxLoops s).2 ≤ 10 ∧
    (∀ i, findSub s ("$(".toList) = some i →
      findClose (s.drop (i + 1)) (i + 1) 0 = none →
      process_response oracles ctx counts s = s) := by
  constructor
  · exact processLoop_iterations_le oracles ctx counts maxLoops s
  · intro i hf hc
    show (processLoop oracles ctx counts (9 + 1) s).1 = s
    simp only [processLoop, processStep, hf, hc]

/-- Witness for C9 at the template `"oops $(broken"` (unmatched `$(`). -/
theorem directive_scan_bounded_and_total_witness :
    process_response noOracles ⟨"alice".toList, [], none⟩ [] ("oops $(broken".toList) =
      "oops $(broken".toList :=
  (directive_scan_bounded_and_total noOracles ⟨"alice".toList, [], none⟩ []
    ("oops $(broken".toList)).2 5 (by rfl) (by rfl)

/-- C10: when the leftmost directive tag `$(cmd arg)` of a template is
unresolvable — an unknown directive name with an argument, or a bare name
with no stored counter — every scan iteration replaces that tag by itself,
so no directive to its right is ever resolved and the rendered output
equals the input from that tag to the end of the string (indeed the whole
output equals the input). -/
theorem unresolvable_leftmost_tag_freezes_render (oracles : EngineOracles)
    (ctx : EngineCtx) (counts : List (Str × Int)) (s : Str) (i j : Nat)
    (cmd : Str) (rest : Option Str) (arg : Str)
    (hf : findSub s ("$(".toList) = some i)
    (hc : findClose (s.drop (i + 1)) (i + 1) 0 = some j)
    (hparse : splitOnce ((s.drop (i + 2)).take (j - (i + 2))) = (cmd, rest))
    (harg : arg = rest.getD [])
    (hunres : (arg ≠ [] ∧ cmd ∉ ["user".toList, "touser".toList, "query".toList,
            "count".toList, "urlfetch".toList, "eval".toList, "uptime".toList]) ∨
         (arg = [] ∧ cmd ∉ ["user".toList, "touser".toList, "query".toList,
            "count".toList] ∧
          ¬ (0 < get_count counts cmd ∨ countsContains counts cmd = true))) :
    (process_response oracles ctx counts s).drop i = s.drop i ∧
    process_response oracles ctx counts s = s := by
  have hstep : processStep oracles ctx counts s = some s := by
    simp only [processStep, hf, hc, hparse]
    rw [resolveTag_unresolved oracles ctx counts _ cmd (rest.getD []) (harg ▸ hunres),
      replaceFirst_self_eq]
  have hmain := processLoop_fixed_point oracles ctx counts s hstep maxLoops
  exact ⟨by rw [show process_response oracles ctx counts s = s from hmain], hmain⟩

/-- Witness for C10: in `"a$(zzz) $(user)"` the leftmost tag `$(zzz)` is a
bare name with no stored counter, so even the recognized `$(user)` to its
right stays unresolved. -/
theorem unresolvable_leftmost_tag_freezes_render_witness :
    (process_response noOracles ⟨"alice".toList, [], none⟩ [] ("a$(zzz) $(user)".toList)).drop 1 =
      ("a$(zzz) $(user)".toList).drop 1 ∧
    process_response noOracles ⟨"alice".toList, [], none⟩ [] ("a$(zzz) $(user)".toList) =
      "a$(zzz) $(user)".toList :=
  unresolvable_leftmost_tag_freezes_render noOracles ⟨"alice".toList, [], none⟩ []
    ("a$(zzz) $(user)".toList) 1 6 ("zzz".toList) none [] (by rfl) (by rfl) (by rfl)
    (by rfl) (by right; refine ⟨rfl, by decide, by decide⟩)

/-- C5: the cooldown gate.  A second invocation while `now - lastInvocation`
is still within the configured window returns `true` and leaves the stored
last-invocation time unchanged; an invocation after the window has elapsed
returns `false` and records the current time; a command with no configured
cooldown never blocks and never mutates state. -/
theorem cooldown_gate_behavior :
    (∀ (cooldowns state : List (Str × Int)) (cmd : Str) (dur t0 now : Int),
       alistLookup cooldowns cmd = some dur →
       alistLookup state cmd = some t0 →
       now - t0 < dur →
       check_cooldown cooldowns state cmd now = (true, state)) ∧
    (∀ (cooldowns state : List (Str × Int)) (cmd : Str) (dur t0 now : Int),
       alistLookup cooldowns cmd = some dur →
       alistLookup state cmd = some t0 →
       dur ≤ now - t0 →
       check_cooldown cooldowns state cmd now = (false, alistInsert state cmd now) ∧
       alistLookup (check_cooldown cooldowns state cmd now).2 cmd = some now) ∧
    (∀ (cooldowns state : List (Str × Int)) (cmd : Str) (now : Int),
       alistLookup cooldowns cmd = none →
       check_cooldown cooldowns state cmd now = (false, state)) := by
  refine ⟨?_, ?_, ?_⟩
  · intro cooldowns state cmd dur t0 now hdur ht0 hwin
    simp [check_cooldown, hdur, ht0, hwin]
  · intro cooldowns state cmd dur t0 now hdur ht0 helapsed
    have hnot : ¬ now - t0 < dur := not_lt.mpr helapsed
    constructor
    · simp [check_cooldown, hdur, ht0, hnot]
    · simp [check_cooldown, hdur, ht0, hnot, alistLookup_insert]
  · intro cooldowns state cmd now hnone
    simp [check_cooldown, hnone]

/-- Witness for C5: command `!x` with a 30-second cooldown, first used at
time 100: a call at time 110 is blocked without touching the state, a call
at time 140 passes and re-stamps, and a command `!y` with no configured
cooldown always passes. -/
theorem cooldown_gate_behavior_witness :
    check_cooldown [(("!x".toList), 30)] [(("!x".toList), 100)] ("!x".toList) 110 =
      (true, [(("!x".toList), 100)]) ∧
    check_cooldown [(("!x".toList), 30)] [(("!x".toList), 100)] ("!x".toList) 140 =
      (false, [(("!x".toList), 140)]) ∧
    check_cooldown [(("!x".toList), 30)] [(("!x".toList), 100)] ("!y".toList) 110 =
      (false, [(("!x".toList), 100)]) :=
  ⟨cooldown_gate_behavior.1 _ _ _ 30 100 110 (by rfl) (by rfl) (by decide),
   (cooldown_gate_behavior.2.1 _ _ _ 30 100 140 (by rfl) (by rfl) (by decide)).1,
   cooldown_gate_behavior.2.2 _ _ _ 110 (by rfl)⟩

/-- C7: permission fail-open.  A command whose lowercased name has no entry
in the permission table (neither directly nor under the `'!'`-prefixed key
tried for unprefixed names) is authorized for every invoker, whatever the
invoker's roles. -/
theorem absent_command_fail_open (permissions : List (Str × List Str))
    (author : ChatAuthor) (commandName : Str)
    (h1 : alistLookup permissions (strLower commandName) = none)
    (h2 : strStartsWith (strLower commandName) ("!".toList) = true ∨
          alistLookup permissions ('!' :: strLower commandName) = none) :
    check_permission permissions author commandName = true := by
  unfold check_permission
  cases hb : author.isBroadcaster with
  | true => rfl
  | false =>
    rcases h2 with h2 | h2
    · simp at h2
      simp [h1, h2]
    · simp [h1, h2]

/-- Witness for C7: a table listing only `!song` does not mention `!zzz`,
so a roleless invoker is still authorized for `!zzz`. -/
theorem absent_command_fail_open_witness :
    check_permission [(("!song".toList), ["everyone".toList])] aliceAuthor
      ("!zzz".toList) = true :=
  absent_command_fail_open _ aliceAuthor ("!zzz".toList) (by rfl) (Or.inl (by rfl))

/-- C4: the retry policy of `_add_to_queue_with_retry` with its bound of one
retry.  The backend add is called at most twice on every run; when every
call fails with a transient (retryable) code the helper makes exactly two
calls and returns the second failure as final; when the first call fails
with a non-transient code the helper returns it after exactly one call,
never retrying. -/
theorem retry_policy_bounds :
    (∀ results : Nat → AddResult, (add_to_queue_with_retry results 1).2 ≤ 2) ∧
    (∀ results : Nat → AddResult,
       (∀ n, (results n).success = false ∧ (results n).code ∈ retryable_codes) →
       add_to_queue_with_retry results 1 = (results 1, 2) ∧
       (add_to_queue_with_retry results 1).1.success = false) ∧
    (∀ results : Nat → AddResult,
       (results 0).success = false →
       (results 0).code ∉ retryable_codes →
       add_to_queue_with_retry results 1 = (results 0, 1)) := by
  refine ⟨?_, ?_, ?_⟩
  · intro results
    unfold add_to_queue_with_retry addLoop
    by_cases h0 : (results 0).success
    · simp [h0]
    · by_cases hr0 : (results 0).code ∈ retryable_codes
      · simp only [h0, hr0]
        by_cases h1 : (results 1).success <;> simp [addLoop, h0, hr0, h1]
      · simp [h0, hr0]
  · intro results h
    have h0 := h 0
    have h1 := h 1
    have heq : add_to_queue_with_retry results 1 = (results 1, 2) := by
      unfold add_to_queue_with_retry addLoop
      simp [addLoop, h0.1, h0.2, h1.1, h1.2]
    exact ⟨heq, by rw [heq]; exact h1.1⟩
  · intro results h0 hr0
    unfold add_to_queue_with_retry addLoop
    simp [h0, hr0]

/-- Witness for C4: a backend always answering the transient
`QUEUE_TIMEOUT` is called exactly twice and the result is a failure; a
backend answering the non-transient `NO_DEVICE` is called exactly once. -/
theorem retry_policy_bounds_witness :
    add_to_queue_with_retry failTransient 1 =
      (⟨false, "QUEUE_TIMEOUT".toList, none⟩, 2) ∧
    add_to_queue_with_retry failNoDevice 1 =
      (⟨false, "NO_DEVICE".toList, none⟩, 1) :=
  ⟨(retry_policy_bounds.2.1 failTransient
      (fun _ => ⟨rfl, List.mem_cons_of_mem _ (List.mem_cons_self _ _)⟩)).1,
   retry_policy_bounds.2.2 failNoDevice rfl (by decide)⟩

/-- C6: `EventSubClient.listen` reconnection.  On an uninterrupted run of
transport errors the delays before the successive reconnect attempts are
exactly `[2, 4, 8, 16, 32]`, i.e. `min(2 ^ n, 32)` seconds before attempt
`n`; after those 5 failed reconnect attempts the sixth error makes the
client clear `running` and stop permanently — whatever events `rest` might
follow, no further reconnect attempt (delay) is made. -/
theorem reconnect_backoff_and_permanent_stop (rest : List ESEvent) :
    listenRun ⟨0, true⟩ (.err :: .err :: .err :: .err :: .err :: .err :: rest) =
      (⟨6, false⟩, [2, 4, 8, 16, 32]) ∧
    (∀ n : Fin 5, [2, 4, 8, 16, 32].get n = min (2 ^ ((n : Nat) + 1)) 32) :=
  ⟨rfl, by decide⟩

/-- C1 counterexample: custom-command dispatch renders the stored template
with `process_response` (directive scanning) only — the `{user}` key/value
substitution pass of `NightbotEngine.process` is not applied on this path —
so the custom command `!hello` with template `"Hi {user}!"` invoked by
`alice` delivers `"Hi {user}!"` verbatim, not `"Hi alice!"`. -/
theorem user_placeholder_not_substituted_on_dispatch :
    (event_message noOracles helloState aliceAuthor 0 ("!hello".toList)).sent =
      some ("Hi {user}!".toList) ∧
    ("Hi {user}!".toList : Str) ≠ "Hi alice!".toList :=
  ⟨rfl, by decide⟩

/-- C1 amended: on custom-command dispatch the invoker's name is injected
by the `$(user)` directive, not by `{user}`: the custom command `!hello`
with template `"Hi $(user)!"` invoked by `alice` delivers `"Hi alice!"`. -/
theorem custom_dispatch_renders_directive_user :
    (event_message noOracles helloDirectiveState aliceAuthor 0 ("!hello".toList)).sent =
      some ("Hi alice!".toList) := rfl

/-- C8: dispatching the custom command `!deaths` (template
`"Count: $(count)"`, stored counter `deaths = 7`) first increments the
counter — the name normalized by stripping `!` and lowercasing — to 8 and
then renders `"Count: 8"`, for every invoker and at every time. -/
theorem counter_command_increments_then_renders (oracles : EngineOracles)
    (author : ChatAuthor) (now : Int) :
    event_message oracles deathsState author now ("!deaths".toList) =
      ⟨some ("Count: 8".toList), [(("deaths".toList), 8)], []⟩ := by
  obtain ⟨nm, b, m, sb, v⟩ := author
  cases b <;> rfl

/-- First-match property of the alias scan: when `(mainCmd, aliases)` is in
the table, `al ∈ aliases` matches the line, and no other alias in the table
matches it (the claim's "no alias overlap"), the scan returns exactly
`(mainCmd, al)`. -/
theorem findAliasMatch_first (l mainCmd al : Str) (aliases : List Str)
    (hal : al ∈ aliases) (hmatch : matchesAlias l al = true) :
    ∀ table : List (Str × List Str), (mainCmd, aliases) ∈ table →
    (∀ m2 as2 a2, (m2, as2) ∈ table → a2 ∈ as2 → matchesAlias l a2 = true →
      m2 = mainCmd ∧ a2 = al) →
    findAliasMatch table l = some (mainCmd, al) := by
  intro table
  induction table with
  | nil => intro hmem _; cases hmem
  | cons hd tl ih =>
    intro hmem huniq
    obtain ⟨m0, as0⟩ := hd
    simp only [findAliasMatch]
    cases hfind : as0.find? (fun a => matchesAlias l a) with
    | some a0 =>
      have hp : matchesAlias l a0 = true := by
        have := List.find?_some hfind
        simpa using this
      have hm := List.mem_of_find?_eq_some hfind
      have hu := huniq m0 as0 a0 (List.mem_cons_self _ _) hm hp
      rw [hu.1, hu.2]
    | none =>
      rcases List.mem_cons.mp hmem with heq | hmem2
      · exfalso
        injection heq with hA hB
        have := List.find?_eq_none.mp hfind al (hB ▸ hal)
        simp [hmatch] at this
      · exact ih hmem2
          (fun m2 as2 a2 hm2 => huniq m2 as2 a2 (List.mem_cons_of_mem _ hm2))

/-- C2 counterexample: the alias scan of `event_message` runs only for
`'!'`-prefixed lines, so with alias table `{"!donate": ["tip"]}` the
inbound line `"tip 5"` — which is the alias `"tip"` followed by a space and
`"5"`, with no alias overlap — is not rewritten to `"!donate 5"`: it is left
as `"tip 5"`. -/
theorem bare_alias_line_not_rewritten :
    matchesAlias ("tip 5".toList) ("tip".toList) = true ∧
    rewriteLine [(("!donate".toList), [("tip".toList)])] ("tip 5".toList) =
      "tip 5".toList ∧
    ("tip 5".toList : Str) ≠ "!donate 5".toList :=
  ⟨rfl, rfl, by decide⟩

/-- C2 amended: for every `'!'`-prefixed inbound line equal to a configured
alias or starting with the alias plus a space, with no other alias in the
table matching the line, the line is rewritten to start with the main
command, the remainder after the alias preserved exactly. -/
theorem alias_rewrite_preserves_remainder (table : List (Str × List Str))
    (mainCmd al l : Str) (aliases : List Str)
    (hbang : strStartsWith l ("!".toList) = true)
    (hmem : (mainCmd, aliases) ∈ table) (hal : al ∈ aliases)
    (hmatch : matchesAlias l al = true)
    (huniq : ∀ m2 as2 a2, (m2, as2) ∈ table → a2 ∈ as2 →
      matchesAlias l a2 = true → m2 = mainCmd ∧ a2 = al) :
    rewriteLine table l = mainCmd ++ l.drop al.length := by
  unfold rewriteLine
  simp at hbang
  simp [hbang, findAliasMatch_first l mainCmd al aliases hal hmatch table hmem huniq]

/-- Witness for the amended C2: alias table `{"!donate": ["!tip"]}`,
inbound `"!tip 5"`, rewritten line `"!donate 5"`. -/
theorem alias_rewrite_preserves_remainder_witness :
    rewriteLine [(("!donate".toList), [("!tip".toList)])] ("!tip 5".toList) =
      "!donate 5".toList := by
  have h := alias_rewrite_preserves_remainder
    [(("!donate".toList), [("!tip".toList)])] ("!donate".toList) ("!tip".toList)
    ("!tip 5".toList) [("!tip".toList)] (by rfl)
    (List.mem_cons_self _ _) (List.mem_cons_self _ _) (by rfl)
    (by
      intro m2 as2 a2 hm2 ha2 hma
      simp only [List.mem_cons, List.not_mem_nil, or_false] at hm2
      obtain ⟨hm, hs⟩ := Prod.mk.injEq .. ▸ hm2
      subst hm
      subst hs
      simp only [List.mem_cons, List.not_mem_nil, or_false] at ha2
      exact ⟨rfl, ha2⟩)
  exact h

/-- C3 counterexample: `"music.apple.com"` is an Apple-Music link (the
substring test used by the resolver accepts it) whose track id cannot be
extracted, and `envNativeDown`'s native lookup fails on every id — yet
resolving it for target `spotify` skips native resolution, calls the
Spotify backend once, and even succeeds, instead of returning a
resolution-failure outcome with no target call. -/
theorem cross_backend_resolution_claim_fails :
    containsSub ("music.apple.com".toList) ("music.apple.com".toList) = true ∧
    envNativeDown.ciderInfo = (fun _ => none) ∧
    resolve_and_add_to_queue envNativeDown ("spotify".toList)
      ("music.apple.com".toList) = ((true, "QUEUE_SUCCESS".toList, none), 1) :=
  ⟨rfl, rfl, rfl⟩

/-- C3 amended: for an Apple-Music link whose track id *can* be extracted,
a failing native-backend lookup (`cider.get_track_info` returning `None`)
makes the resolver return the resolution-failure outcome `(False, "Could
not resolve Apple Music link (Cider offline?)", None)` without any search
or enqueue call on the Spotify target; a link whose id cannot be extracted
instead falls through to the target as free-text search. -/
theorem apple_link_native_failure_no_target_call (env : ResolverEnv)
    (query tid : Str)
    (happle : containsSub query ("music.apple.com".toList) = true)
    (hext : cider_extract_track_id query = some tid)
    (hinfo : env.ciderInfo tid = none) :
    resolve_and_add_to_queue env ("spotify".toList) query =
      ((false, "Could not resolve Apple Music link (Cider offline?)".toList, none), 0) := by
  unfold resolve_and_add_to_queue
  simp at happle
  simp [happle, hext, hinfo]

/-- Witness for the amended C3 at the song-URL
`"https://music.apple.com/us/song/x/123"` with every native lookup
failing. -/
theorem apple_link_native_failure_no_target_call_witness :
    resolve_and_add_to_queue envNativeDown ("spotify".toList)
      ("https://music.apple.com/us/song/x/123".toList) =
      ((false, "Could not resolve Apple Music link (Cider offline?)".toList, none), 0) :=
  apple_link_native_failure_no_target_call envNativeDown
    ("https://music.apple.com/us/song/x/123".toList) ("123".toList)
    (by rfl) (by rfl) rfl
